import Mathlib

/-
Shallow embedding of the alertmanager-stomp-forwarder application (src/main.go).

The program is an HTTP-to-STOMP bridge.  The embedded core is:
  - the JSON decoding of the webhook body into the `Alerts` / `Alert`
    structures (Go `encoding/json`, function `unmarshalAlerts`),
  - the re-serialization of a single `Alert` (Go `json.Marshal`),
  - the per-alert broker publish cycle (`sendAlertToStomp`),
  - the POST handler (`alertPOSTHandler`) with its counters.

Modelling decisions, each justified by the semantics of the libraries the
source uses:
  - `log` in the source is a `logrus` logger.  `logrus.Logger.Fatalf` logs
    and then unconditionally calls `Exit(1)` (os.Exit).  Every `log.Fatalf`
    call site therefore terminates the process; control never reaches the
    statements after it.  The embedding makes this explicit: results carry
    an `exited` / fatal marker, and execution stops at the `Fatalf` point
    with whatever side effects happened before it.
  - the byte-level JSON grammar (the scanner of `encoding/json`) is not
    re-implemented; a request body is either syntactically malformed JSON or
    a parsed JSON value (`RawPayload`).  The structural decoding of a JSON
    value into the Go structs, which is where all type checking happens, is
    embedded faithfully (missing fields keep zero values, `null` is a no-op
    for strings and resets maps/slices, type mismatches are errors, unknown
    fields are ignored, duplicate keys are processed left to right).
  - Go maps are modelled as association lists with last-wins insertion;
    `json.Marshal` emits map keys in sorted order, which the embedding
    mirrors with an insertion sort, recursively for nested objects.
  - the broker is an oracle: for each publish call it says whether the dial
    (connect+authenticate), the send, and the disconnect succeed.
  - `io.ReadAll` of the request body is assumed to succeed (its failure
    branch concerns the HTTP transport, not the forwarding logic).
-/

namespace StompForwarder

/-- JSON values, as produced by the encoding/json scanner. -/
inductive Json where
  | null : Json
  | bool : Bool → Json
  | num : Int → Json
  | str : String → Json
  | arr : List Json → Json
  | obj : List (String × Json) → Json

/-- Go: unmarshalling a JSON value into a string field.  A string sets the
field, `null` is a no-op (the field keeps its current value), anything else
is an UnmarshalTypeError. -/
def decodeStrInto (cur : String) : Json → Option String
  | Json.str s => some s
  | Json.null => some cur
  | _ => none

/-- Go: unmarshalling a JSON value into an element of a `map[string]string`.
The element starts from the zero value, so `null` yields the empty string. -/
def decodeLabelValue : Json → Option String
  | Json.str s => some s
  | Json.null => some ""
  | _ => none

/-- Last-wins insertion into an association list, the model of a Go map
assignment `m[k] = v`. -/
def mapInsert {α : Type} (m : List (String × α)) (k : String) (v : α) :
    List (String × α) :=
  if m.any (fun p => p.1 = k) then m.map (fun p => if p.1 = k then (k, v) else p)
  else m ++ [(k, v)]

/-- Go: decoding the fields of a JSON object into a `map[string]string`,
processing keys left to right. -/
def decodeLabelsFields (acc : List (String × String)) :
    List (String × Json) → Option (List (String × String))
  | [] => some acc
  | (k, v) :: rest =>
    match decodeLabelValue v with
    | some s => decodeLabelsFields (mapInsert acc k s) rest
    | none => none

/-- Go: unmarshalling a JSON value into a `map[string]string` field.  An
object is merged into the existing map, `null` resets the map to nil,
anything else is an error. -/
def decodeLabelsInto (cur : List (String × String)) :
    Json → Option (List (String × String))
  | Json.obj fs => decodeLabelsFields cur fs
  | Json.null => some []
  | _ => none

/-- Go: decoding the fields of a JSON object into a
`map[string]interface\x7b\x7d`; every JSON value is accepted. -/
def decodeJsonMapFields (acc : List (String × Json)) :
    List (String × Json) → List (String × Json)
  | [] => acc
  | (k, v) :: rest => decodeJsonMapFields (mapInsert acc k v) rest

/-- Go: unmarshalling a JSON value into a `map[string]interface\x7b\x7d`
field. -/
def decodeJsonMapInto (cur : List (String × Json)) :
    Json → Option (List (String × Json))
  | Json.obj fs => some (decodeJsonMapFields cur fs)
  | Json.null => some []
  | _ => none

/-- Alert is a structure for a single Prometheus Alert (src/main.go). -/
structure Alert where
  Annotations : List (String × Json)
  EndsAt : String
  GeneratorURL : String
  Labels : List (String × String)
  StartsAt : String

/-- Zero value of the `Alert` struct. -/
def defaultAlert : Alert :=
  { Annotations := [], EndsAt := "", GeneratorURL := "", Labels := [], StartsAt := "" }

/-- Go: decoding one key/value pair of a JSON object into the matching
field of `Alert` (json tags: annotations, endsAt, generatorURL, labels,
startsAt); unknown keys are ignored. -/
def decodeAlertField (a : Alert) : String × Json → Option Alert
  | ("annotations", v) => (decodeJsonMapInto a.Annotations v).map (fun m => { a with Annotations := m })
  | ("endsAt", v) => (decodeStrInto a.EndsAt v).map (fun s => { a with EndsAt := s })
  | ("generatorURL", v) => (decodeStrInto a.GeneratorURL v).map (fun s => { a with GeneratorURL := s })
  | ("labels", v) => (decodeLabelsInto a.Labels v).map (fun m => { a with Labels := m })
  | ("startsAt", v) => (decodeStrInto a.StartsAt v).map (fun s => { a with StartsAt := s })
  | (_, _) => some a

/-- Go: folding the fields of a JSON object into an `Alert`. -/
def decodeAlertFields (a : Alert) : List (String × Json) → Option Alert
  | [] => some a
  | f :: rest =>
    match decodeAlertField a f with
    | some a2 => decodeAlertFields a2 rest
    | none => none

/-- Go: unmarshalling a JSON value into an `Alert` struct; `null` is a
no-op on the zero value. -/
def decodeAlert : Json → Option Alert
  | Json.obj fs => decodeAlertFields defaultAlert fs
  | Json.null => some defaultAlert
  | _ => none

/-- Go: unmarshalling the elements of a JSON array into `[]Alert`. -/
def decodeAlertList : List Json → Option (List Alert)
  | [] => some []
  | j :: rest =>
    match decodeAlert j, decodeAlertList rest with
    | some a, some l => some (a :: l)
    | _, _ => none

/-- Alerts is a structure for grouping Prometheus Alerts (src/main.go). -/
structure Alerts where
  Alerts : List Alert
  CommonAnnotations : List (String × Json)
  CommonLabels : List (String × Json)
  ExternalURL : String
  GroupLabels : List (String × Json)
  Receiver : String
  Status : String

/-- Zero value of the `Alerts` struct. -/
def defaultAlerts : Alerts :=
  { Alerts := [], CommonAnnotations := [], CommonLabels := [], ExternalURL := "",
    GroupLabels := [], Receiver := "", Status := "" }

/-- Go: decoding one key/value pair of a JSON object into the matching
field of `Alerts` (json tags: alerts, commonAnnotations, commonLabels,
externalURL, groupLabels, receiver, status). -/
def decodeAlertsField (b : Alerts) : String × Json → Option Alerts
  | ("alerts", v) =>
    match v with
    | Json.arr xs => (decodeAlertList xs).map (fun l => { b with Alerts := l })
    | Json.null => some { b with Alerts := [] }
    | _ => none
  | ("commonAnnotations", v) => (decodeJsonMapInto b.CommonAnnotations v).map (fun m => { b with CommonAnnotations := m })
  | ("commonLabels", v) => (decodeJsonMapInto b.CommonLabels v).map (fun m => { b with CommonLabels := m })
  | ("externalURL", v) => (decodeStrInto b.ExternalURL v).map (fun s => { b with ExternalURL := s })
  | ("groupLabels", v) => (decodeJsonMapInto b.GroupLabels v).map (fun m => { b with GroupLabels := m })
  | ("receiver", v) => (decodeStrInto b.Receiver v).map (fun s => { b with Receiver := s })
  | ("status", v) => (decodeStrInto b.Status v).map (fun s => { b with Status := s })
  | (_, _) => some b

/-- Go: folding the fields of a JSON object into an `Alerts`. -/
def decodeAlertsFields (b : Alerts) : List (String × Json) → Option Alerts
  | [] => some b
  | f :: rest =>
    match decodeAlertsField b f with
    | some b2 => decodeAlertsFields b2 rest
    | none => none

/-- Go: unmarshalling a JSON value into the `Alerts` struct. -/
def decodeAlerts : Json → Option Alerts
  | Json.obj fs => decodeAlertsFields defaultAlerts fs
  | Json.null => some defaultAlerts
  | _ => none

/-- Request body as received: either bytes that are not syntactically valid
JSON, or a parsed JSON value.  The byte-level grammar lives in
encoding/json and is not re-implemented here. -/
inductive RawPayload where
  | malformed : RawPayload
  | wellFormed : Json → RawPayload

/-- Embeds `unmarshalAlerts` (src/main.go): json.Unmarshal of the request
body into the `Alerts` struct; returns the error unchanged on failure. -/
def unmarshalAlerts : RawPayload → Option Alerts
  | RawPayload.malformed => none
  | RawPayload.wellFormed j => decodeAlerts j

/-- Insertion of one key/value pair into a key-sorted association list
(ordering by Go byte-wise string comparison, modelled with the string
order of Lean). -/
def insertByKey {α : Type} (p : String × α) : List (String × α) → List (String × α)
  | [] => [p]
  | q :: qs => if q.1 < p.1 then q :: insertByKey p qs else p :: q :: qs

/-- Key-sorted copy of an association list: json.Marshal emits the keys of
a Go map in sorted order. -/
def sortByKey {α : Type} : List (String × α) → List (String × α)
  | [] => []
  | p :: ps => insertByKey p (sortByKey ps)

mutual

/-- Canonical form a decoded JSON value takes when json.Marshal writes it
back out of an interface value: objects get their keys sorted at every
level, everything else round-trips unchanged. -/
def sortJson : Json → Json
  | Json.null => Json.null
  | Json.bool b => Json.bool b
  | Json.num n => Json.num n
  | Json.str s => Json.str s
  | Json.arr xs => Json.arr (sortJsonList xs)
  | Json.obj fs => Json.obj (sortByKey (sortJsonFields fs))

/-- Marshalling of the elements of an array. -/
def sortJsonList : List Json → List Json
  | [] => []
  | j :: rest => sortJson j :: sortJsonList rest

/-- Marshalling of the values of an object. -/
def sortJsonFields : List (String × Json) → List (String × Json)
  | [] => []
  | (k, v) :: rest => (k, sortJson v) :: sortJsonFields rest

end

/-- Embeds json.Marshal of the `labels` field (`map[string]string`): keys
sorted, values emitted as JSON strings. -/
def marshalLabels (m : List (String × String)) : Json :=
  Json.obj ((sortByKey m).map (fun p => (p.1, Json.str p.2)))

/-- Embeds `json.Marshal(alert)` inside `sendAlertToStomp` (src/main.go):
struct fields are written in declaration order (annotations, endsAt,
generatorURL, labels, startsAt), map keys sorted.  On the values this
embedding produces, json.Marshal cannot fail (every value originates from
decoded JSON), so the error branch of the source is not reachable. -/
def marshalAlert (a : Alert) : Json :=
  Json.obj [
    ("annotations", sortJson (Json.obj a.Annotations)),
    ("endsAt", Json.str a.EndsAt),
    ("generatorURL", Json.str a.GeneratorURL),
    ("labels", marshalLabels a.Labels),
    ("startsAt", Json.str a.StartsAt)]

/-- Behaviour of the broker for one publish call: whether the
dial/authenticate step fails, the send fails after a successful dial, or
everything succeeds. -/
inductive PublishOutcome where
  | dialFail : PublishOutcome
  | sendFail : PublishOutcome
  | success : PublishOutcome
deriving DecidableEq

/-- Result of one execution of `sendAlertToStomp`: a nil error, a non-nil
error returned to the caller, or termination of the whole process inside
the function (logrus `Fatalf`).  The `sendError` value mirrors the
`return err` statements of the source, but both of them sit directly
below a `log.Fatalf` call, which exits the process first — so
`sendAlertToStomp` never actually produces `sendError`; the constructor
is kept so the caller's dead error branch can be written down
faithfully. -/
inductive StompResult where
  | ok : StompResult
  | sendError : StompResult
  | fatalExit : StompResult
deriving DecidableEq

/-- Observable interaction with the broker: number of dial attempts, the
send frames in order (destination topic and JSON body; the content type is
always application/json in the source), and the number of disconnect
frames. -/
structure StompTrace where
  dials : Nat
  sends : List (String × Json)
  disconnects : Nat

/-- Concatenation of two interaction traces. -/
def StompTrace.append (t u : StompTrace) : StompTrace :=
  { dials := t.dials + u.dials, sends := t.sends ++ u.sends,
    disconnects := t.disconnects + u.disconnects }

/-- Empty interaction trace. -/
def emptyTrace : StompTrace := { dials := 0, sends := [], disconnects := 0 }

/-- Embeds `sendAlertToStomp` (src/main.go).  Control flow of the source:
marshal the alert (cannot fail here, see `marshalAlert`), then
`stomp.Dial`; on a dial error the source calls `log.Fatalf`, which
terminates the process — the branch has no return statement, but the send
line below it is never executed.  On a successful dial the source invokes
Send; on a send error it calls `log.Fatalf` and only then `return err`,
so the process exits before the return executes: a failed send also ends
in process termination, without disconnecting, and no error value ever
reaches the caller.  Only after a successful send is `Disconnect` called,
and its result is discarded (`_ = stompConn.Disconnect()`), so `disc` —
whether that disconnect would fail — never influences the result. -/
def sendAlertToStomp (topic : String) (alert : Alert)
    (broker : PublishOutcome) (disc : Bool) : StompResult × StompTrace :=
  let message := marshalAlert alert
  match broker with
  | PublishOutcome.dialFail =>
    (StompResult.fatalExit, { dials := 1, sends := [], disconnects := 0 })
  | PublishOutcome.sendFail =>
    (StompResult.fatalExit, { dials := 1, sends := [(topic, message)], disconnects := 0 })
  | PublishOutcome.success =>
    let _ := disc
    (StompResult.ok, { dials := 1, sends := [(topic, message)], disconnects := 1 })

/-- Per-request counter increments recorded by the handler:
amq_total_requests with result ok / not_ok, http_request_total by response
code, and the number of httpDuration observations. -/
structure Metrics where
  okCount : Nat
  notOkCount : Nat
  http200 : Nat
  http500 : Nat
  observations : Nat
deriving DecidableEq

/-- State threaded through the publish loop of the handler. -/
structure LoopState where
  okCount : Nat
  notOkCount : Nat
  observations : Nat
  trace : StompTrace

/-- Loop state at the start of the handler. -/
def initLoopState : LoopState :=
  { okCount := 0, notOkCount := 0, observations := 0, trace := emptyTrace }

/-- How the publish loop of the handler ends: it either runs off the end of
the slice, or the process dies inside it via `log.Fatalf`. -/
inductive LoopOutcome where
  | completed : LoopOutcome
  | fatal : LoopOutcome
deriving DecidableEq

/-- Embeds the `for _, alert := range alerts.Alerts` loop of
`alertPOSTHandler` (src/main.go).  For each alert, `sendAlertToStomp` runs
with the broker behaviour `broker idx`.  Any publish failure (dial or
send) already killed the process inside the callee.  The error branch of the
source — observe the timer, increment
amq_total_requests\x7bresult="not_ok"\x7d, call `log.Fatalf` — is written
down here as the `sendError` arm, but it is dead code, in the source and
in this model alike, because `sendAlertToStomp` never returns a non-nil
error; the not_ok counter is therefore unreachable.  On a nil error
amq_total_requests\x7bresult="ok"\x7d is incremented and the loop
advances. -/
def publishLoop (topic : String) (broker : Nat → PublishOutcome × Bool) :
    Nat → LoopState → List Alert → LoopOutcome × LoopState
  | _, s, [] => (LoopOutcome.completed, s)
  | idx, s, alert :: rest =>
    match sendAlertToStomp topic alert (broker idx).1 (broker idx).2 with
    | (StompResult.fatalExit, t) =>
      (LoopOutcome.fatal, { s with trace := s.trace.append t })
    | (StompResult.sendError, t) =>
      (LoopOutcome.fatal,
        { s with trace := s.trace.append t,
                 observations := s.observations + 1,
                 notOkCount := s.notOkCount + 1 })
    | (StompResult.ok, t) =>
      publishLoop topic broker (idx + 1)
        { s with trace := s.trace.append t, okCount := s.okCount + 1 } rest

/-- Everything observable about one execution of the POST handler:
`statusWritten` is the argument of the WriteHeader call if one happened,
`exited` says whether the process was terminated by a `log.Fatalf` during
the request, `metrics` are the counter increments and `trace` the broker
interaction. -/
structure HandlerResult where
  statusWritten : Option Nat
  exited : Bool
  metrics : Metrics
  trace : StompTrace

/-- Embeds `alertPOSTHandler` (src/main.go) for one request to
POST /alerts/:topic.  Step order as in the source: start the timer, read
the body (assumed readable), `unmarshalAlerts`; on a decode error the
source observes the timer, increments http_request_total\x7b500\x7d,
writes header 500 and calls `log.Fatalf` (process exit).  Otherwise the
publish loop runs; if it completes, the timer is observed,
http_request_total\x7b200\x7d is incremented and header 200 is written. -/
def alertPOSTHandler (topic : String) (body : RawPayload)
    (broker : Nat → PublishOutcome × Bool) : HandlerResult :=
  match unmarshalAlerts body with
  | none =>
    { statusWritten := some 500, exited := true,
      metrics := { okCount := 0, notOkCount := 0, http200 := 0, http500 := 1,
                   observations := 1 },
      trace := emptyTrace }
  | some alerts =>
    match publishLoop topic broker 0 initLoopState alerts.Alerts with
    | (LoopOutcome.completed, s) =>
      { statusWritten := some 200, exited := false,
        metrics := { okCount := s.okCount, notOkCount := s.notOkCount,
                     http200 := 1, http500 := 0, observations := s.observations + 1 },
        trace := s.trace }
    | (LoopOutcome.fatal, s) =>
      { statusWritten := none, exited := true,
        metrics := { okCount := s.okCount, notOkCount := s.notOkCount,
                     http200 := 0, http500 := 0, observations := s.observations },
        trace := s.trace }

/-- Field lookup in a JSON object (first occurrence). -/
def lookupKey : List (String × Json) → String → Option Json
  | [], _ => none
  | (k, v) :: rest, key => if k = key then some v else lookupKey rest key

/-- The fields of the `labels` member of a marshalled alert object; the
empty list when the value is absent or not an object. -/
def marshalledLabelFields (j : Json) : List (String × Json) :=
  match j with
  | Json.obj fs =>
    match lookupKey fs "labels" with
    | some (Json.obj ls) => ls
    | _ => []
  | _ => []

/-- Alert of the concrete scenario of the spec:
\x7b"labels":\x7b"alertname":"Foo"\x7d,"startsAt":"2024-01-01T00:00:00Z",
"endsAt":"","annotations":\x7b\x7d,"generatorURL":""\x7d. -/
def exAlertJson : Json :=
  Json.obj [("labels", Json.obj [("alertname", Json.str "Foo")]),
            ("startsAt", Json.str "2024-01-01T00:00:00Z"),
            ("endsAt", Json.str ""),
            ("annotations", Json.obj []),
            ("generatorURL", Json.str "")]

/-- The decoded form of `exAlertJson`. -/
def exAlert : Alert :=
  { Annotations := [], EndsAt := "", GeneratorURL := "",
    Labels := [("alertname", "Foo")], StartsAt := "2024-01-01T00:00:00Z" }

/-- Request body carrying one alert. -/
def bodyOneAlert : RawPayload :=
  RawPayload.wellFormed (Json.obj [("alerts", Json.arr [exAlertJson])])

/-- Request body carrying two alerts. -/
def bodyTwoAlerts : RawPayload :=
  RawPayload.wellFormed (Json.obj [("alerts", Json.arr [exAlertJson, exAlertJson])])

/-- Request body with an empty alerts array. -/
def bodyEmptyBatch : RawPayload :=
  RawPayload.wellFormed (Json.obj [("alerts", Json.arr [])])

/-- Request body whose alerts field has the wrong JSON type. -/
def bodyMistyped : RawPayload :=
  RawPayload.wellFormed (Json.obj [("alerts", Json.num 3)])

/-- Decoded batch of `bodyOneAlert`. -/
def batchOne : Alerts := { defaultAlerts with Alerts := [exAlert] }

/-- Decoded batch of `bodyTwoAlerts`. -/
def batchTwo : Alerts := { defaultAlerts with Alerts := [exAlert, exAlert] }

/-- Broker on which every publish succeeds. -/
def brokerAllOk : Nat → PublishOutcome × Bool :=
  fun _ => (PublishOutcome.success, false)

/-- Broker on which the first send fails (connection succeeds) and later
publishes would succeed. -/
def brokerSendFailFirst : Nat → PublishOutcome × Bool :=
  fun i => if i = 0 then (PublishOutcome.sendFail, false) else (PublishOutcome.success, false)

/-- Broker that is unreachable: every dial fails. -/
def brokerDialFail : Nat → PublishOutcome × Bool :=
  fun _ => (PublishOutcome.dialFail, false)

/-- Equation for a fully successful publish call. -/
theorem sendAlertToStomp_success (topic : String) (a : Alert) (d : Bool) :
    sendAlertToStomp topic a PublishOutcome.success d =
      (StompResult.ok,
        { dials := 1, sends := [(topic, marshalAlert a)], disconnects := 1 }) := rfl

/-- Equation for a publish call where the send frame fails: the process
terminates inside the call (the `return err` of the source is below a
`log.Fatalf` and never executes), after the dial and the send attempt and
without a disconnect. -/
theorem sendAlertToStomp_sendFail (topic : String) (a : Alert) (d : Bool) :
    sendAlertToStomp topic a PublishOutcome.sendFail d =
      (StompResult.fatalExit,
        { dials := 1, sends := [(topic, marshalAlert a)], disconnects := 0 }) := rfl

/-- Equation for a publish call where the dial fails. -/
theorem sendAlertToStomp_dialFail (topic : String) (a : Alert) (d : Bool) :
    sendAlertToStomp topic a PublishOutcome.dialFail d =
      (StompResult.fatalExit,
        { dials := 1, sends := [], disconnects := 0 }) := rfl

/-- Inserting into a key-sorted list is a permutation of consing. -/
theorem insertByKey_perm {α : Type} (p : String × α) :
    ∀ l : List (String × α), List.Perm (insertByKey p l) (p :: l)
  | [] => List.Perm.refl _
  | q :: qs => by
    simp only [insertByKey]
    by_cases h : q.1 < p.1
    · simp only [if_pos h]
      exact ((insertByKey_perm p qs).cons q).trans (List.Perm.swap p q qs)
    · simp only [if_neg h]
      exact List.Perm.refl _

/-- Sorting an association list by key permutes it. -/
theorem sortByKey_perm {α : Type} :
    ∀ l : List (String × α), List.Perm (sortByKey l) l
  | [] => List.Perm.refl _
  | p :: ps => (insertByKey_perm p (sortByKey ps)).trans ((sortByKey_perm ps).cons p)

/-- Characterization of the publish loop when every publish succeeds: it
completes, the ok counter grows by the batch length, and one dial, one
send and one disconnect happen per alert, the sends carrying the
serialized alerts in input order. -/
theorem publishLoop_all_success (topic : String) (broker : Nat → PublishOutcome × Bool)
    (l : List Alert) :
    ∀ (idx : Nat) (s : LoopState),
      (∀ i, i < l.length → (broker (idx + i)).1 = PublishOutcome.success) →
      publishLoop topic broker idx s l =
        (LoopOutcome.completed,
          { okCount := s.okCount + l.length,
            notOkCount := s.notOkCount,
            observations := s.observations,
            trace := { dials := s.trace.dials + l.length,
                       sends := s.trace.sends ++ l.map (fun a => (topic, marshalAlert a)),
                       disconnects := s.trace.disconnects + l.length } }) := by
  induction l with
  | nil =>
    intro idx s h
    cases s with
    | mk ok nok obs tr =>
      cases tr with
      | mk d sd dc => simp [publishLoop]
  | cons a rest ih =>
    intro idx s h
    have h0 : (broker idx).1 = PublishOutcome.success := by
      simpa using h 0 (Nat.succ_pos rest.length)
    have h1 : ∀ i, i < rest.length → (broker (idx + 1 + i)).1 = PublishOutcome.success := by
      intro i hi
      have h2 := h (i + 1) (Nat.succ_lt_succ hi)
      have h3 : idx + (i + 1) = idx + 1 + i := by omega
      rw [h3] at h2
      exact h2
    simp only [publishLoop, h0, sendAlertToStomp_success]
    rw [ih (idx + 1) _ h1]
    simp only [Prod.mk.injEq, LoopState.mk.injEq, StompTrace.mk.injEq, StompTrace.append,
      List.map_cons, List.length_cons, List.append_assoc, List.singleton_append, true_and]
    repeat' apply And.intro
    all_goals first | rfl | omega | trivial | simp

/-- Characterization of the publish loop when the first k publishes
succeed and publish k fails at the send step: the process dies inside
`sendAlertToStomp`, so the first k+1 alerts (and only they) are dialled
and sent, ok counts the k successes, and neither not_ok nor the timer is
touched for the failing alert (the handler's error branch is dead
code). -/
theorem publishLoop_sendFail_at (topic : String) (broker : Nat → PublishOutcome × Bool)
    (k : Nat) :
    ∀ (l : List Alert) (idx : Nat) (s : LoopState),
      k < l.length →
      (∀ i, i < k → (broker (idx + i)).1 = PublishOutcome.success) →
      (broker (idx + k)).1 = PublishOutcome.sendFail →
      publishLoop topic broker idx s l =
        (LoopOutcome.fatal,
          { okCount := s.okCount + k,
            notOkCount := s.notOkCount,
            observations := s.observations,
            trace := { dials := s.trace.dials + k + 1,
                       sends := s.trace.sends ++
                         (l.take (k + 1)).map (fun a => (topic, marshalAlert a)),
                       disconnects := s.trace.disconnects + k } }) := by
  induction k with
  | zero =>
    intro l idx s hk hpre hfail
    cases l with
    | nil => simp at hk
    | cons a rest =>
      have hf : (broker idx).1 = PublishOutcome.sendFail := by simpa using hfail
      simp only [publishLoop, hf, sendAlertToStomp_sendFail]
      simp only [Prod.mk.injEq, LoopState.mk.injEq, StompTrace.mk.injEq, StompTrace.append,
        List.take_succ_cons, List.take_zero, List.map_cons, List.map_nil,
        List.append_assoc, List.singleton_append, true_and]
      repeat' apply And.intro
      all_goals first | rfl | omega | trivial | simp
  | succ k ih =>
    intro l idx s hk hpre hfail
    cases l with
    | nil => simp at hk
    | cons a rest =>
      have h0 : (broker idx).1 = PublishOutcome.success := by
        simpa using hpre 0 (Nat.succ_pos k)
      have hpre1 : ∀ i, i < k → (broker (idx + 1 + i)).1 = PublishOutcome.success := by
        intro i hi
        have h2 := hpre (i + 1) (Nat.succ_lt_succ hi)
        have h3 : idx + (i + 1) = idx + 1 + i := by omega
        rw [h3] at h2
        exact h2
      have hfail1 : (broker (idx + 1 + k)).1 = PublishOutcome.sendFail := by
        have h3 : idx + (k + 1) = idx + 1 + k := by omega
        rw [h3] at hfail
        exact hfail
      have hk1 : k < rest.length := Nat.lt_of_succ_lt_succ hk
      simp only [publishLoop, h0, sendAlertToStomp_success]
      rw [ih rest (idx + 1) _ hk1 hpre1 hfail1]
      simp only [Prod.mk.injEq, LoopState.mk.injEq, StompTrace.mk.injEq, StompTrace.append,
        List.take_succ_cons, List.map_cons, List.append_assoc, List.singleton_append, true_and]
      repeat' apply And.intro
      all_goals first | rfl | omega | trivial | simp

/-- Characterization of the publish loop when the first k publishes
succeed and the dial of publish k fails: the process dies inside
`sendAlertToStomp`, so only the k successful alerts are sent, and neither
counter nor timer is touched for the failing alert (not_ok stays as it
was). -/
theorem publishLoop_dialFail_at (topic : String) (broker : Nat → PublishOutcome × Bool)
    (k : Nat) :
    ∀ (l : List Alert) (idx : Nat) (s : LoopState),
      k < l.length →
      (∀ i, i < k → (broker (idx + i)).1 = PublishOutcome.success) →
      (broker (idx + k)).1 = PublishOutcome.dialFail →
      publishLoop topic broker idx s l =
        (LoopOutcome.fatal,
          { okCount := s.okCount + k,
            notOkCount := s.notOkCount,
            observations := s.observations,
            trace := { dials := s.trace.dials + k + 1,
                       sends := s.trace.sends ++
                         (l.take k).map (fun a => (topic, marshalAlert a)),
                       disconnects := s.trace.disconnects + k } }) := by
  induction k with
  | zero =>
    intro l idx s hk hpre hfail
    cases l with
    | nil => simp at hk
    | cons a rest =>
      have hf : (broker idx).1 = PublishOutcome.dialFail := by simpa using hfail
      simp only [publishLoop, hf, sendAlertToStomp_dialFail]
      simp only [Prod.mk.injEq, LoopState.mk.injEq, StompTrace.mk.injEq, StompTrace.append,
        List.take_zero, List.map_nil, List.append_nil, true_and]
      repeat' apply And.intro
      all_goals first | rfl | omega | trivial | simp
  | succ k ih =>
    intro l idx s hk hpre hfail
    cases l with
    | nil => simp at hk
    | cons a rest =>
      have h0 : (broker idx).1 = PublishOutcome.success := by
        simpa using hpre 0 (Nat.succ_pos k)
      have hpre1 : ∀ i, i < k → (broker (idx + 1 + i)).1 = PublishOutcome.success := by
        intro i hi
        have h2 := hpre (i + 1) (Nat.succ_lt_succ hi)
        have h3 : idx + (i + 1) = idx + 1 + i := by omega
        rw [h3] at h2
        exact h2
      have hfail1 : (broker (idx + 1 + k)).1 = PublishOutcome.dialFail := by
        have h3 : idx + (k + 1) = idx + 1 + k := by omega
        rw [h3] at hfail
        exact hfail
      have hk1 : k < rest.length := Nat.lt_of_succ_lt_succ hk
      simp only [publishLoop, h0, sendAlertToStomp_success]
      rw [ih rest (idx + 1) _ hk1 hpre1 hfail1]
      simp only [Prod.mk.injEq, LoopState.mk.injEq, StompTrace.mk.injEq, StompTrace.append,
        List.take_succ_cons, List.map_cons, List.append_assoc, List.singleton_append, true_and]
      repeat' apply And.intro
      all_goals first | rfl | omega | trivial | simp

/-- Whatever the broker does, the send frames emitted by the publish loop
are the serializations of an initial segment of the alert list, in input
order. -/
theorem publishLoop_sends_take (topic : String) (broker : Nat → PublishOutcome × Bool)
    (l : List Alert) :
    ∀ (idx : Nat) (s : LoopState),
      ∃ n, n ≤ l.length ∧
        (publishLoop topic broker idx s l).2.trace.sends =
          s.trace.sends ++ (l.take n).map (fun a => (topic, marshalAlert a)) := by
  induction l with
  | nil =>
    intro idx s
    exact ⟨0, Nat.le_refl 0, by simp [publishLoop]⟩
  | cons a rest ih =>
    intro idx s
    rcases hb : (broker idx).1 with _ | _ | _
    · refine ⟨0, Nat.zero_le _, ?_⟩
      simp [publishLoop, hb, sendAlertToStomp_dialFail, StompTrace.append]
    · refine ⟨1, Nat.succ_le_succ (Nat.zero_le _), ?_⟩
      simp [publishLoop, hb, sendAlertToStomp_sendFail, StompTrace.append]
    · obtain ⟨n, hn, hs⟩ := ih (idx + 1)
        { s with trace := s.trace.append (StompTrace.mk 1 [(topic, marshalAlert a)] 1),
                 okCount := s.okCount + 1 }
      refine ⟨n + 1, Nat.succ_le_succ hn, ?_⟩
      simp only [publishLoop, hb, sendAlertToStomp_success]
      rw [hs]
      simp [StompTrace.append, List.append_assoc]

/-- Behaviour of the POST handler when decoding fails: timer observed,
http 500 counted, header 500 written, then the process exits; the broker
is never contacted. -/
theorem alertPOSTHandler_decode_fail (topic : String) (body : RawPayload)
    (broker : Nat → PublishOutcome × Bool) (h : unmarshalAlerts body = none) :
    alertPOSTHandler topic body broker =
      { statusWritten := some 500, exited := true,
        metrics := { okCount := 0, notOkCount := 0, http200 := 0, http500 := 1,
                     observations := 1 },
        trace := emptyTrace } := by
  simp [alertPOSTHandler, h]

/-- Behaviour of the POST handler when decoding succeeds and every publish
succeeds. -/
theorem alertPOSTHandler_all_success (topic : String) (body : RawPayload)
    (broker : Nat → PublishOutcome × Bool) (batch : Alerts)
    (hdec : unmarshalAlerts body = some batch)
    (hsucc : ∀ i, i < batch.Alerts.length → (broker i).1 = PublishOutcome.success) :
    alertPOSTHandler topic body broker =
      { statusWritten := some 200, exited := false,
        metrics := { okCount := batch.Alerts.length, notOkCount := 0,
                     http200 := 1, http500 := 0, observations := 1 },
        trace := { dials := batch.Alerts.length,
                   sends := batch.Alerts.map (fun a => (topic, marshalAlert a)),
                   disconnects := batch.Alerts.length } } := by
  have hs : ∀ i, i < batch.Alerts.length → (broker (0 + i)).1 = PublishOutcome.success := by
    intro i hi
    simpa using hsucc i hi
  have hloop := publishLoop_all_success topic broker batch.Alerts 0 initLoopState hs
  simp only [alertPOSTHandler, hdec]
  rw [hloop]
  simp [initLoopState, emptyTrace]

/-- Behaviour of the POST handler when decoding succeeds, the first k
publishes succeed and publish k fails at the send step: the process dies
inside the publish call (before its `return err`), so not_ok is never
incremented and the timer is not observed. -/
theorem alertPOSTHandler_sendFail_at (topic : String) (body : RawPayload)
    (broker : Nat → PublishOutcome × Bool) (batch : Alerts) (k : Nat)
    (hdec : unmarshalAlerts body = some batch)
    (hk : k < batch.Alerts.length)
    (hpre : ∀ i, i < k → (broker i).1 = PublishOutcome.success)
    (hfail : (broker k).1 = PublishOutcome.sendFail) :
    alertPOSTHandler topic body broker =
      { statusWritten := none, exited := true,
        metrics := { okCount := k, notOkCount := 0, http200 := 0, http500 := 0,
                     observations := 0 },
        trace := { dials := k + 1,
                   sends := (batch.Alerts.take (k + 1)).map (fun a => (topic, marshalAlert a)),
                   disconnects := k } } := by
  have hpre0 : ∀ i, i < k → (broker (0 + i)).1 = PublishOutcome.success := by
    intro i hi
    simpa using hpre i hi
  have hfail0 : (broker (0 + k)).1 = PublishOutcome.sendFail := by simpa using hfail
  have hloop := publishLoop_sendFail_at topic broker k batch.Alerts 0 initLoopState hk hpre0 hfail0
  simp only [alertPOSTHandler, hdec]
  rw [hloop]
  simp [initLoopState, emptyTrace]

/-- Behaviour of the POST handler when decoding succeeds, the first k
publishes succeed and the dial of publish k fails: the process dies inside
the publish call, so not_ok is never incremented and the timer is not
observed. -/
theorem alertPOSTHandler_dialFail_at (topic : String) (body : RawPayload)
    (broker : Nat → PublishOutcome × Bool) (batch : Alerts) (k : Nat)
    (hdec : unmarshalAlerts body = some batch)
    (hk : k < batch.Alerts.length)
    (hpre : ∀ i, i < k → (broker i).1 = PublishOutcome.success)
    (hfail : (broker k).1 = PublishOutcome.dialFail) :
    alertPOSTHandler topic body broker =
      { statusWritten := none, exited := true,
        metrics := { okCount := k, notOkCount := 0, http200 := 0, http500 := 0,
                     observations := 0 },
        trace := { dials := k + 1,
                   sends := (batch.Alerts.take k).map (fun a => (topic, marshalAlert a)),
                   disconnects := k } } := by
  have hpre0 : ∀ i, i < k → (broker (0 + i)).1 = PublishOutcome.success := by
    intro i hi
    simpa using hpre i hi
  have hfail0 : (broker (0 + k)).1 = PublishOutcome.dialFail := by simpa using hfail
  have hloop := publishLoop_dialFail_at topic broker k batch.Alerts 0 initLoopState hk hpre0 hfail0
  simp only [alertPOSTHandler, hdec]
  rw [hloop]
  simp [initLoopState, emptyTrace]

/-- On a successful decode, the broker trace of the handler is the trace
of the publish loop, whether or not the loop ended fatally. -/
theorem alertPOSTHandler_trace_eq (topic : String) (body : RawPayload)
    (broker : Nat → PublishOutcome × Bool) (batch : Alerts)
    (hdec : unmarshalAlerts body = some batch) :
    (alertPOSTHandler topic body broker).trace =
      (publishLoop topic broker 0 initLoopState batch.Alerts).2.trace := by
  simp only [alertPOSTHandler, hdec]
  rcases hpl : publishLoop topic broker 0 initLoopState batch.Alerts with ⟨o, s⟩
  cases o <;> rfl

/-- The publish loop never changes the not_ok counter, whatever the broker
does: its increment sits in the handler's error branch, which is dead code
because `sendAlertToStomp` exits the process instead of returning a
non-nil error. -/
theorem publishLoop_notOk_const (topic : String) (broker : Nat → PublishOutcome × Bool)
    (l : List Alert) :
    ∀ (idx : Nat) (s : LoopState),
      (publishLoop topic broker idx s l).2.notOkCount = s.notOkCount := by
  induction l with
  | nil =>
    intro idx s
    simp [publishLoop]
  | cons a rest ih =>
    intro idx s
    rcases hb : (broker idx).1 with _ | _ | _
    · simp [publishLoop, hb, sendAlertToStomp_dialFail]
    · simp [publishLoop, hb, sendAlertToStomp_sendFail]
    · simp only [publishLoop, hb, sendAlertToStomp_success]
      rw [ih]

/-- No execution of the POST handler can increment the not_ok counter:
amq_total_requests\x7bresult="not_ok"\x7d is unreachable, because any
publish failure terminates the process inside `sendAlertToStomp` before
the handler's increment. -/
theorem alertPOSTHandler_notOk_zero (topic : String) (body : RawPayload)
    (broker : Nat → PublishOutcome × Bool) :
    (alertPOSTHandler topic body broker).metrics.notOkCount = 0 := by
  cases hu : unmarshalAlerts body with
  | none =>
    simp [alertPOSTHandler, hu]
  | some batch =>
    have h := publishLoop_notOk_const topic broker batch.Alerts 0 initLoopState
    simp only [alertPOSTHandler, hu]
    rcases hpl : publishLoop topic broker 0 initLoopState batch.Alerts with ⟨o, s⟩
    rw [hpl] at h
    cases o
    · simpa [initLoopState] using h
    · simpa [initLoopState] using h

/-- C1 counterexample: for the two-alert batch `bodyTwoAlerts` on a broker
where the first send fails, only ONE publish attempt is made (one dial),
the process exits inside the publish call, and no response is written —
so, contrary to the claim, iteration does not continue past the failure
and the forward call does not report failure. -/
theorem C1_counterexample :
    (alertPOSTHandler "t" bodyTwoAlerts brokerSendFailFirst).trace.dials = 1 ∧
    (alertPOSTHandler "t" bodyTwoAlerts brokerSendFailFirst).exited = true ∧
    (alertPOSTHandler "t" bodyTwoAlerts brokerSendFailFirst).statusWritten = none :=
  ⟨rfl, rfl, rfl⟩

/-- C1 (amended): for every decoded batch, if the publish of alert k is
the first to fail, the process terminates inside the publish call via
log.Fatalf: exactly k+1 publish attempts occur, alerts after the failing
one are never attempted, and no response is written, so no overall
failure is reported. -/
theorem C1_first_failure_aborts (topic : String) (body : RawPayload)
    (broker : Nat → PublishOutcome × Bool) (batch : Alerts) (k : Nat)
    (hdec : unmarshalAlerts body = some batch)
    (hk : k < batch.Alerts.length)
    (hpre : ∀ i, i < k → (broker i).1 = PublishOutcome.success)
    (hfail : (broker k).1 ≠ PublishOutcome.success) :
    (alertPOSTHandler topic body broker).exited = true ∧
    (alertPOSTHandler topic body broker).statusWritten = none ∧
    (alertPOSTHandler topic body broker).trace.dials = k + 1 := by
  rcases hb : (broker k).1 with _ | _ | _
  · rw [alertPOSTHandler_dialFail_at topic body broker batch k hdec hk hpre hb]
    exact ⟨rfl, rfl, rfl⟩
  · rw [alertPOSTHandler_sendFail_at topic body broker batch k hdec hk hpre hb]
    exact ⟨rfl, rfl, rfl⟩
  · exact absurd hb hfail

/-- Witness for C1 (amended) at the two-alert batch with the first send
failing. -/
theorem C1_witness :
    unmarshalAlerts bodyTwoAlerts = some batchTwo ∧
    ((alertPOSTHandler "t" bodyTwoAlerts brokerSendFailFirst).exited = true ∧
     (alertPOSTHandler "t" bodyTwoAlerts brokerSendFailFirst).statusWritten = none ∧
     (alertPOSTHandler "t" bodyTwoAlerts brokerSendFailFirst).trace.dials = 1) :=
  ⟨rfl, C1_first_failure_aborts "t" bodyTwoAlerts brokerSendFailFirst batchTwo 0 rfl
    (by decide) (fun i hi => absurd hi (Nat.not_lt_zero i)) (by decide)⟩

/-- C2: behaviour at the failing input.  For a one-alert body on a broker
where the send fails, the process terminates via log.Fatalf inside
`sendAlertToStomp` (before its `return err`, before any counter): no
response is written and not_ok stays 0 — the claim (and the handler
comment in the source) promise a 500.  The other halves of the claim
hold: a decode failure yields 500 and a fully successful batch yields
200. -/
theorem C2_divergence_behaviour :
    (alertPOSTHandler "kubernetes" bodyOneAlert brokerSendFailFirst).statusWritten = none ∧
    (alertPOSTHandler "kubernetes" bodyOneAlert brokerSendFailFirst).exited = true ∧
    (alertPOSTHandler "kubernetes" bodyOneAlert brokerSendFailFirst).metrics.notOkCount = 0 ∧
    (alertPOSTHandler "kubernetes" RawPayload.malformed brokerAllOk).statusWritten = some 500 ∧
    (alertPOSTHandler "kubernetes" bodyOneAlert brokerAllOk).statusWritten = some 200 :=
  ⟨rfl, rfl, rfl, rfl, rfl⟩

/-- C3 counterexample: two-alert batch, the first publish fails at the
send step and the second would succeed.  The claim demands N = 2 publish
attempts with not_ok increasing by 1 and ok by N-1 = 1; in fact only 1
attempt occurs and BOTH counters stay 0 — the process exits inside the
publish call before any counter is touched. -/
theorem C3_counterexample :
    (alertPOSTHandler "t" bodyTwoAlerts brokerSendFailFirst).metrics.okCount = 0 ∧
    (alertPOSTHandler "t" bodyTwoAlerts brokerSendFailFirst).metrics.notOkCount = 0 ∧
    (alertPOSTHandler "t" bodyTwoAlerts brokerSendFailFirst).trace.dials = 1 :=
  ⟨rfl, rfl, rfl⟩

/-- C3 (amended): when all N publishes succeed, ok increases by exactly N
and the handler answers 200.  When the first failure — send failure or
connect failure alike — is at position k, the process dies inside the
publish call: exactly k+1 publish attempts occur, ok increases by k, and
not_ok is not incremented.  Indeed not_ok can never be incremented by any
request: its increment site in the handler is dead code, because the
publish call exits the process on every failure. -/
theorem C3_counter_accounting :
    (∀ (topic : String) (body : RawPayload) (broker : Nat → PublishOutcome × Bool)
        (batch : Alerts),
        unmarshalAlerts body = some batch →
        (∀ i, i < batch.Alerts.length → (broker i).1 = PublishOutcome.success) →
        (alertPOSTHandler topic body broker).metrics.okCount = batch.Alerts.length ∧
        (alertPOSTHandler topic body broker).metrics.notOkCount = 0 ∧
        (alertPOSTHandler topic body broker).statusWritten = some 200) ∧
    (∀ (topic : String) (body : RawPayload) (broker : Nat → PublishOutcome × Bool)
        (batch : Alerts) (k : Nat),
        unmarshalAlerts body = some batch →
        k < batch.Alerts.length →
        (∀ i, i < k → (broker i).1 = PublishOutcome.success) →
        (broker k).1 ≠ PublishOutcome.success →
        (alertPOSTHandler topic body broker).metrics.okCount = k ∧
        (alertPOSTHandler topic body broker).metrics.notOkCount = 0 ∧
        (alertPOSTHandler topic body broker).trace.dials = k + 1) ∧
    (∀ (topic : String) (body : RawPayload) (broker : Nat → PublishOutcome × Bool),
        (alertPOSTHandler topic body broker).metrics.notOkCount = 0) := by
  refine ⟨?_, ?_, ?_⟩
  · intro topic body broker batch hdec hsucc
    rw [alertPOSTHandler_all_success topic body broker batch hdec hsucc]
    exact ⟨rfl, rfl, rfl⟩
  · intro topic body broker batch k hdec hk hpre hfail
    rcases hb : (broker k).1 with _ | _ | _
    · rw [alertPOSTHandler_dialFail_at topic body broker batch k hdec hk hpre hb]
      exact ⟨rfl, rfl, rfl⟩
    · rw [alertPOSTHandler_sendFail_at topic body broker batch k hdec hk hpre hb]
      exact ⟨rfl, rfl, rfl⟩
    · exact absurd hb hfail
  · intro topic body broker
    exact alertPOSTHandler_notOk_zero topic body broker

/-- Witness for C3 (amended): the all-success case on the two-alert batch,
the first-failure case at position 0 (a send failure), and the
never-incremented not_ok counter, each at a concrete input. -/
theorem C3_witness :
    ((alertPOSTHandler "t" bodyTwoAlerts brokerAllOk).metrics.okCount = 2 ∧
     (alertPOSTHandler "t" bodyTwoAlerts brokerAllOk).metrics.notOkCount = 0 ∧
     (alertPOSTHandler "t" bodyTwoAlerts brokerAllOk).statusWritten = some 200) ∧
    ((alertPOSTHandler "t" bodyTwoAlerts brokerSendFailFirst).metrics.okCount = 0 ∧
     (alertPOSTHandler "t" bodyTwoAlerts brokerSendFailFirst).metrics.notOkCount = 0 ∧
     (alertPOSTHandler "t" bodyTwoAlerts brokerSendFailFirst).trace.dials = 1) ∧
    ((alertPOSTHandler "t" bodyOneAlert brokerDialFail).metrics.notOkCount = 0) :=
  ⟨C3_counter_accounting.1 "t" bodyTwoAlerts brokerAllOk batchTwo rfl (fun i hi => rfl),
   C3_counter_accounting.2.1 "t" bodyTwoAlerts brokerSendFailFirst batchTwo 0 rfl
     (by decide) (fun i hi => absurd hi (Nat.not_lt_zero i)) (by decide),
   C3_counter_accounting.2.2 "t" bodyOneAlert brokerDialFail⟩

/-- C4 counterexample: on a broker whose dial fails, the publish call does
not return a connect error — the process exits inside it — and at the
handler level the per-alert failure counter not_ok stays 0 and no failed
forward result is produced (no response at all). -/
theorem C4_counterexample :
    (sendAlertToStomp "t" exAlert PublishOutcome.dialFail false).1 = StompResult.fatalExit ∧
    (alertPOSTHandler "t" bodyOneAlert brokerDialFail).metrics.notOkCount = 0 ∧
    (alertPOSTHandler "t" bodyOneAlert brokerDialFail).statusWritten = none ∧
    (alertPOSTHandler "t" bodyOneAlert brokerDialFail).exited = true :=
  ⟨rfl, rfl, rfl, rfl⟩

/-- C4 (amended): when the connection or authentication step cannot
complete, the publish call terminates the process via log.Fatalf: it never
returns an error value, no send frame goes out, and at the handler level
the not_ok counter is not incremented and no forward result of any kind is
reported. -/
theorem C4_connect_failure_fatal :
    (∀ (topic : String) (a : Alert) (d : Bool),
        sendAlertToStomp topic a PublishOutcome.dialFail d =
          (StompResult.fatalExit, { dials := 1, sends := [], disconnects := 0 })) ∧
    (∀ (topic : String) (body : RawPayload) (broker : Nat → PublishOutcome × Bool)
        (batch : Alerts) (k : Nat),
        unmarshalAlerts body = some batch →
        k < batch.Alerts.length →
        (∀ i, i < k → (broker i).1 = PublishOutcome.success) →
        (broker k).1 = PublishOutcome.dialFail →
        (alertPOSTHandler topic body broker).metrics.notOkCount = 0 ∧
        (alertPOSTHandler topic body broker).statusWritten = none ∧
        (alertPOSTHandler topic body broker).exited = true) := by
  refine ⟨fun topic a d => rfl, ?_⟩
  intro topic body broker batch k hdec hk hpre hfail
  rw [alertPOSTHandler_dialFail_at topic body broker batch k hdec hk hpre hfail]
  exact ⟨rfl, rfl, rfl⟩

/-- Witness for C4 (amended) at a concrete alert and the one-alert batch
against the unreachable broker. -/
theorem C4_witness :
    (sendAlertToStomp "kubernetes" exAlert PublishOutcome.dialFail false =
      (StompResult.fatalExit, { dials := 1, sends := [], disconnects := 0 })) ∧
    ((alertPOSTHandler "kubernetes" bodyOneAlert brokerDialFail).metrics.notOkCount = 0 ∧
     (alertPOSTHandler "kubernetes" bodyOneAlert brokerDialFail).statusWritten = none ∧
     (alertPOSTHandler "kubernetes" bodyOneAlert brokerDialFail).exited = true) :=
  ⟨C4_connect_failure_fatal.1 "kubernetes" exAlert false,
   C4_connect_failure_fatal.2 "kubernetes" bodyOneAlert brokerDialFail batchOne 0 rfl
     (by decide) (fun i hi => absurd hi (Nat.not_lt_zero i)) (by decide)⟩

/-- C5 counterexample: the send-failure exit path of the publish call — a
connection was established (one dial) but the process terminates after
the failed send — performs NO disconnect attempt, contrary to the claim
that a disconnect is attempted on every exit path. -/
theorem C5_counterexample :
    (sendAlertToStomp "t" exAlert PublishOutcome.sendFail false).1 = StompResult.fatalExit ∧
    (sendAlertToStomp "t" exAlert PublishOutcome.sendFail false).2.dials = 1 ∧
    (sendAlertToStomp "t" exAlert PublishOutcome.sendFail false).2.disconnects = 0 :=
  ⟨rfl, rfl, rfl⟩

/-- C5 (amended): a disconnect is attempted only on the successful-send
exit path — one disconnect on success, none on a send failure or a dial
failure, where the process terminates via log.Fatalf without
disconnecting — and where a disconnect is attempted its failure is never
surfaced: the result of the publish call does not depend on whether the
disconnect succeeds. -/
theorem C5_disconnect_only_on_success (topic : String) (a : Alert)
    (o : PublishOutcome) (d d2 : Bool) :
    sendAlertToStomp topic a o d = sendAlertToStomp topic a o d2 ∧
    (sendAlertToStomp topic a o d).2.disconnects =
      (if o = PublishOutcome.success then 1 else 0) := by
  cases o <;> exact ⟨rfl, rfl⟩

/-- C6: a decode failure (malformed JSON or a type mismatch) makes the
forward call fail with HTTP 500 having performed zero publish attempts: no
dial, no send, no counter movement on the publish counters. -/
theorem C6_decode_failure_zero_publishes (topic : String) (body : RawPayload)
    (broker : Nat → PublishOutcome × Bool)
    (h : unmarshalAlerts body = none) :
    (alertPOSTHandler topic body broker).statusWritten = some 500 ∧
    (alertPOSTHandler topic body broker).trace.dials = 0 ∧
    (alertPOSTHandler topic body broker).trace.sends = [] ∧
    (alertPOSTHandler topic body broker).metrics.okCount = 0 ∧
    (alertPOSTHandler topic body broker).metrics.notOkCount = 0 := by
  rw [alertPOSTHandler_decode_fail topic body broker h]
  exact ⟨rfl, rfl, rfl, rfl, rfl⟩

/-- Witness for C6 at two concrete bodies: syntactically malformed bytes,
and well-formed JSON whose alerts field has the wrong type. -/
theorem C6_witness :
    ((alertPOSTHandler "kubernetes" RawPayload.malformed brokerAllOk).statusWritten = some 500 ∧
     (alertPOSTHandler "kubernetes" RawPayload.malformed brokerAllOk).trace.dials = 0 ∧
     (alertPOSTHandler "kubernetes" RawPayload.malformed brokerAllOk).trace.sends = [] ∧
     (alertPOSTHandler "kubernetes" RawPayload.malformed brokerAllOk).metrics.okCount = 0 ∧
     (alertPOSTHandler "kubernetes" RawPayload.malformed brokerAllOk).metrics.notOkCount = 0) ∧
    ((alertPOSTHandler "kubernetes" bodyMistyped brokerAllOk).statusWritten = some 500 ∧
     (alertPOSTHandler "kubernetes" bodyMistyped brokerAllOk).trace.dials = 0 ∧
     (alertPOSTHandler "kubernetes" bodyMistyped brokerAllOk).trace.sends = [] ∧
     (alertPOSTHandler "kubernetes" bodyMistyped brokerAllOk).metrics.okCount = 0 ∧
     (alertPOSTHandler "kubernetes" bodyMistyped brokerAllOk).metrics.notOkCount = 0) :=
  ⟨C6_decode_failure_zero_publishes "kubernetes" RawPayload.malformed brokerAllOk rfl,
   C6_decode_failure_zero_publishes "kubernetes" bodyMistyped brokerAllOk rfl⟩

/-- C7: a payload whose alerts array is empty decodes successfully and the
handler answers 200 after zero publish calls (no dial, no send, no
counter movement, no process exit). -/
theorem C7_empty_batch_success (topic : String) (body : RawPayload)
    (broker : Nat → PublishOutcome × Bool) (batch : Alerts)
    (hdec : unmarshalAlerts body = some batch)
    (hempty : batch.Alerts = []) :
    (alertPOSTHandler topic body broker).statusWritten = some 200 ∧
    (alertPOSTHandler topic body broker).exited = false ∧
    (alertPOSTHandler topic body broker).trace.dials = 0 ∧
    (alertPOSTHandler topic body broker).trace.sends = [] ∧
    (alertPOSTHandler topic body broker).metrics.okCount = 0 ∧
    (alertPOSTHandler topic body broker).metrics.notOkCount = 0 := by
  have hsucc : ∀ i, i < batch.Alerts.length → (broker i).1 = PublishOutcome.success := by
    intro i hi
    rw [hempty] at hi
    exact absurd hi (by simp)
  rw [alertPOSTHandler_all_success topic body broker batch hdec hsucc, hempty]
  exact ⟨rfl, rfl, rfl, rfl, rfl, rfl⟩

/-- Witness for C7 at the concrete empty-batch body. -/
theorem C7_witness :
    ((alertPOSTHandler "kubernetes" bodyEmptyBatch brokerAllOk).statusWritten = some 200 ∧
     (alertPOSTHandler "kubernetes" bodyEmptyBatch brokerAllOk).exited = false ∧
     (alertPOSTHandler "kubernetes" bodyEmptyBatch brokerAllOk).trace.dials = 0 ∧
     (alertPOSTHandler "kubernetes" bodyEmptyBatch brokerAllOk).trace.sends = [] ∧
     (alertPOSTHandler "kubernetes" bodyEmptyBatch brokerAllOk).metrics.okCount = 0 ∧
     (alertPOSTHandler "kubernetes" bodyEmptyBatch brokerAllOk).metrics.notOkCount = 0) :=
  C7_empty_batch_success "kubernetes" bodyEmptyBatch brokerAllOk defaultAlerts rfl rfl

/-- C8: the messages actually sent to the broker are the serializations of
an initial segment of the decoded alerts array, in input order (so the
i-th frame sent is the serialization of the i-th alert), and when every
publish succeeds, every alert of the array is sent, in order. -/
theorem C8_sends_in_input_order (topic : String) (body : RawPayload)
    (broker : Nat → PublishOutcome × Bool) (batch : Alerts)
    (hdec : unmarshalAlerts body = some batch) :
    (∃ n, n ≤ batch.Alerts.length ∧
        (alertPOSTHandler topic body broker).trace.sends =
          (batch.Alerts.take n).map (fun a => (topic, marshalAlert a))) ∧
    ((∀ i, i < batch.Alerts.length → (broker i).1 = PublishOutcome.success) →
        (alertPOSTHandler topic body broker).trace.sends =
          batch.Alerts.map (fun a => (topic, marshalAlert a))) := by
  constructor
  · obtain ⟨n, hn, hs⟩ := publishLoop_sends_take topic broker batch.Alerts 0 initLoopState
    refine ⟨n, hn, ?_⟩
    rw [alertPOSTHandler_trace_eq topic body broker batch hdec, hs]
    simp [initLoopState, emptyTrace]
  · intro hsucc
    rw [alertPOSTHandler_all_success topic body broker batch hdec hsucc]

/-- Witness for C8 at the two-alert batch on the all-success broker. -/
theorem C8_witness :
    (∃ n, n ≤ batchTwo.Alerts.length ∧
        (alertPOSTHandler "kubernetes" bodyTwoAlerts brokerAllOk).trace.sends =
          (batchTwo.Alerts.take n).map (fun a => ("kubernetes", marshalAlert a))) ∧
    ((∀ i, i < batchTwo.Alerts.length → (brokerAllOk i).1 = PublishOutcome.success) →
        (alertPOSTHandler "kubernetes" bodyTwoAlerts brokerAllOk).trace.sends =
          batchTwo.Alerts.map (fun a => ("kubernetes", marshalAlert a))) :=
  C8_sends_in_input_order "kubernetes" bodyTwoAlerts brokerAllOk batchTwo rfl

/-- C9: for an alert obtained by decoding a JSON value, the labels object
of the re-serialized alert carries exactly the key/value pairs of the
decoded labels mapping — the serialization only reorders the keys. -/
theorem C9_label_round_trip (j : Json) (a : Alert)
    (h : decodeAlert j = some a) (k v : String) :
    ((k, Json.str v) ∈ marshalledLabelFields (marshalAlert a)) ↔ (k, v) ∈ a.Labels := by
  have hfields : marshalledLabelFields (marshalAlert a) =
      (sortByKey a.Labels).map (fun p => (p.1, Json.str p.2)) := rfl
  have hperm : List.Perm (sortByKey a.Labels) a.Labels := sortByKey_perm a.Labels
  rw [hfields]
  constructor
  · intro hm
    rcases List.mem_map.mp hm with ⟨p, hp, he⟩
    have h1 : p.1 = k := congrArg Prod.fst he
    have h2 : Json.str p.2 = Json.str v := congrArg Prod.snd he
    have h3 : p.2 = v := by injection h2
    have h4 : p = (k, v) := Prod.ext h1 h3
    rw [h4] at hp
    exact hperm.mem_iff.mp hp
  · intro hm
    exact List.mem_map.mpr ⟨(k, v), hperm.mem_iff.mpr hm, rfl⟩

/-- Witness for C9 at the concrete alert of the spec scenario, label
alertname=Foo. -/
theorem C9_witness :
    decodeAlert exAlertJson = some exAlert ∧
    ((("alertname", Json.str "Foo") ∈ marshalledLabelFields (marshalAlert exAlert)) ↔
      ("alertname", "Foo") ∈ exAlert.Labels) :=
  ⟨rfl, C9_label_round_trip exAlertJson exAlert rfl "alertname" "Foo"⟩

/-- C10 counterexample: when the dial fails, the publish call emits NO
send frame and ends in process termination — the send step is never
executed on the nil connection, contrary to the claimed fall-through. -/
theorem C10_counterexample :
    (sendAlertToStomp "t" exAlert PublishOutcome.dialFail true).2.sends = [] ∧
    (sendAlertToStomp "t" exAlert PublishOutcome.dialFail true).1 = StompResult.fatalExit :=
  ⟨rfl, rfl⟩

/-- C10 (amended): the connect-error branch indeed contains no return
statement, but log.Fatalf terminates the process (logrus Fatal semantics),
so after a failed dial control never reaches the send step: no send frame
is ever emitted and the nil connection value is never used. -/
theorem C10_no_send_after_dial_failure (topic : String) (a : Alert) (d : Bool) :
    (sendAlertToStomp topic a PublishOutcome.dialFail d).2.sends = [] ∧
    (sendAlertToStomp topic a PublishOutcome.dialFail d).1 = StompResult.fatalExit :=
  ⟨rfl, rfl⟩

end StompForwarder
